import Mathlib

/-!
Verification of the monitoring / incident / notification engine of the
fn-bot repository (file src/connection/setup-email.js), translated as a
shallow embedding: the relevant JavaScript functions of the
ServerMonitor class and its collaborators become pure Lean functions,
with stateful code given explicit state passing.  Timestamps are natural
numbers counting milliseconds (mirroring JavaScript Date values), and
any operation that may throw is modelled by an Option / Except valued
outcome supplied by the environment.
-/

namespace FnBot

/-- Player occupancy part of a probe result (data.players in
checkServer): current online count and maximum capacity. -/
structure Players where
  online : Nat
  max : Nat
  deriving Repr, DecidableEq

/-- Version metadata of a probe result (data.version in checkServer):
display name and numeric protocol. -/
structure VersionInfo where
  name : String
  protocol : Int
  deriving Repr, DecidableEq

/-- The status snapshot built by ServerMonitor.checkServer and stored in
server.lastStatus.  On the error path the players and version fields are
absent, which the Option encodes; error is populated exactly on the
error path. -/
structure Status where
  online : Bool
  players : Option Players
  version : Option VersionInfo
  error : Option String
  responseTime : Nat
  lastCheck : Nat
  deriving Repr, DecidableEq

/-- Cumulative per-server counters (serverSchema.stats). -/
structure Stats where
  totalChecks : Nat
  uptimeChecks : Nat
  totalDowntime : Nat
  deriving Repr, DecidableEq

/-- The payload of a successful mcstatus.io response, with the fields
checkServer reads; players and version may be missing from the JSON and
are then defaulted by checkServer. -/
structure ProbeData where
  online : Bool
  players : Option Players
  version : Option VersionInfo
  deriving Repr, DecidableEq

/-- Outcome of the axios probe call in checkServer: either a response
with its payload, or a thrown error (timeout, network failure) with its
message; either way a response time is measured. -/
inductive ProbeOutcome where
  | success (data : ProbeData) (responseTime : Nat)
  | failure (errMsg : String) (responseTime : Nat)
  deriving Repr, DecidableEq

/-- ServerMonitor.checkServer, src/connection/setup-email.js lines
755-841, restricted to its state effect: given the current stats, the
configured check interval (seconds) and the probe outcome, it produces
the updated stats and the status snapshot written to server.lastStatus.
On the success path stats.totalChecks is incremented first, then players
and version are defaulted when missing (version defaults to protocol -1),
and uptimeChecks or totalDowntime is bumped depending on data.online; on
the error path totalChecks was already incremented inside the try block
before the throw, and totalDowntime is bumped in the catch block. -/
def checkServer (stats : Stats) (checkInterval : Nat) (outcome : ProbeOutcome)
    (now : Nat) : Stats × Status :=
  match outcome with
  | .success data rt =>
      let stats1 := { stats with totalChecks := stats.totalChecks + 1 }
      let status : Status :=
        { online := data.online
          players := some (data.players.getD { online := 0, max := 0 })
          version := some (data.version.getD { name := "Unknown", protocol := -1 })
          error := none
          responseTime := rt
          lastCheck := now }
      let stats2 :=
        if status.online then
          { stats1 with uptimeChecks := stats1.uptimeChecks + 1 }
        else
          { stats1 with totalDowntime := stats1.totalDowntime + checkInterval }
      (stats2, status)
  | .failure errMsg rt =>
      let stats1 := { stats with totalChecks := stats.totalChecks + 1 }
      let status : Status :=
        { online := false
          players := none
          version := none
          error := some errMsg
          responseTime := rt
          lastCheck := now }
      ({ stats1 with totalDowntime := stats1.totalDowntime + checkInterval }, status)

/-- A candidate issue produced by the detector (the object literals
pushed in checkForIssues). -/
structure Issue where
  type : String
  severity : String
  title : String
  description : String
  deriving Repr, DecidableEq

/-- The description string of the server_offline issue; JavaScript
evaluates status.error with the || operator, so an absent or empty error
string falls back to the literal used in the source. -/
def offlineDescription (serverName : String) (error : Option String) : String :=
  let e := match error with
    | some e => if e = "" then "Connection timeout" else e
    | none => "Connection timeout"
  "Server " ++ serverName ++ " is not responding. Error: " ++ e

/-- ServerMonitor.checkForIssues, src/connection/setup-email.js lines
843-890: the pure rule evaluation part, returning the list of issues
pushed, in push order.  The JavaScript truthiness tests status.players,
status.version and status.version.protocol translate to Option matches
plus a protocol-nonzero test (0 is falsy). -/
def checkForIssues (serverName : String) (status : Status) : List Issue :=
  (if !status.online then
    [{ type := "server_offline", severity := "critical", title := "Server Offline",
       description := offlineDescription serverName status.error }]
   else []) ++
  (if status.responseTime > 1000 then
    [{ type := "high_latency", severity := "warning", title := "High Latency",
       description := "Server " ++ serverName ++ " has high latency: " ++
         toString status.responseTime ++ "ms" }]
   else []) ++
  (match status.players with
   | some p =>
      if p.online = p.max ∧ p.max > 0 then
        [{ type := "full_capacity", severity := "warning", title := "Server Full",
           description := "Server " ++ serverName ++ " is at full capacity (" ++
             toString p.online ++ "/" ++ toString p.max ++ ")" }]
      else []
   | none => []) ++
  (match status.version with
   | some v =>
      if v.protocol ≠ 0 ∧ v.protocol < 671 then
        [{ type := "version_mismatch", severity := "info", title := "Old Version",
           description := "Server " ++ serverName ++ " is running an old version: " ++
             v.name }]
      else []
   | none => [])

/-- A monitored server (serverSchema), restricted to the fields the
monitoring engine reads. -/
structure Server where
  id : Nat
  name : String
  address : String
  port : Nat
  checkInterval : Nat
  deriving Repr, DecidableEq

/-- The data sub-object stored on an incident by handleIssue. -/
structure IncidentData where
  serverName : String
  serverAddress : String
  timestamp : Nat
  deriving Repr, DecidableEq

/-- A persisted incident row: exactly the paths declared by
incidentSchema, src/connection/setup-email.js lines 205-216 (serverId,
type, title, description, severity, status, resolvedAt, data,
notificationsSent, createdAt), plus a surrogate id.  Note the schema
declares no updatedAt path. -/
structure Incident where
  id : Nat
  serverId : Nat
  type : String
  title : String
  description : String
  severity : String
  status : String
  resolvedAt : Option Nat
  data : Option IncidentData
  notificationsSent : Bool
  createdAt : Nat
  deriving Repr, DecidableEq

/-- A persisted notification row (notificationSchema): one per delivery
attempt, recording its outcome. -/
structure NotificationRec where
  type : String
  title : String
  message : String
  recipient : String
  status : String
  error : Option String
  sentAt : Nat
  deriving Repr, DecidableEq

/-- One entry of the in-memory notifications array that
sendIncidentNotifications pushes per delivery attempt. -/
structure Attempt where
  type : String
  recipient : String
  status : String
  error : Option String
  deriving Repr, DecidableEq

/-- The environment read by the notification senders: settings values
(getSetting), channel readiness flags, and the outcome each external
send call would have (none = delivered, some msg = the call throws with
that message).  telegramQuery is the outcome of the subscriber query
Setting.find, yielding (chatId, subscribed) pairs. -/
structure ChannelEnv where
  emailEnabled : Bool
  telegramEnabled : Bool
  whatsappEnabled : Bool
  adminEmail : Option String
  adminPhone : Option String
  notifyCritical : Bool
  notifyWarning : Bool
  notifyInfo : Bool
  whatsappReady : Bool
  telegramReady : Bool
  emailSend : Option String
  whatsappSend : Option String
  telegramQuery : Except String (List (String × Bool))
  telegramSend : String → Option String

/-- The severity gate of sendIncidentNotifications (the switch on
incident.severity over notify_critical / notify_warning / notify_info);
an unrecognised severity leaves shouldSend false. -/
def severityEnabled (env : ChannelEnv) (severity : String) : Bool :=
  if severity = "critical" then env.notifyCritical
  else if severity = "warning" then env.notifyWarning
  else if severity = "info" then env.notifyInfo
  else false

/-- ServerMonitor.sendIncidentNotifications, src/connection/setup-email.js
lines 956-1106, as a pure function from the channel environment, the
incident and the current time to the list of notification rows persisted
(one per delivery attempt, in push order) and the final value of the
incident's notificationsSent flag.  The severity gate returns before any
attempt; each channel block, and each telegram recipient inside the
loop, has its own catch, pushing a failed entry instead of throwing. -/
def sendIncidentNotifications (env : ChannelEnv) (incident : Incident)
    (now : Nat) : List NotificationRec × Bool :=
  let shouldSend :=
    if incident.severity = "critical" then env.notifyCritical
    else if incident.severity = "warning" then env.notifyWarning
    else if incident.severity = "info" then env.notifyInfo
    else false
  if !shouldSend then ([], false)
  else
    let notifications : List Attempt := []
    let notifications := notifications ++
      (if env.emailEnabled then
        match env.adminEmail with
        | some addr =>
            (match env.emailSend with
             | none => [{ type := "email", recipient := addr, status := "sent",
                          error := none }]
             | some e => [{ type := "email", recipient := addr, status := "failed",
                            error := some e }])
        | none => []
       else [])
    let notifications := notifications ++
      (if env.whatsappEnabled then
        match env.adminPhone with
        | some phone =>
            if env.whatsappReady then
              (match env.whatsappSend with
               | none => [{ type := "whatsapp", recipient := phone, status := "sent",
                            error := none }]
               | some e => [{ type := "whatsapp", recipient := phone,
                              status := "failed", error := some e }])
            else []
        | none => []
       else [])
    let notifications := notifications ++
      (if env.telegramEnabled && env.telegramReady then
        match env.telegramQuery with
        | .error e => [{ type := "telegram", recipient := "subscribers",
                         status := "failed", error := some e }]
        | .ok subs =>
            (subs.filter (fun s => s.2)).map (fun s =>
              match env.telegramSend s.1 with
              | none => { type := "telegram", recipient := s.1, status := "sent",
                          error := none }
              | some e => { type := "telegram", recipient := s.1, status := "failed",
                            error := some e })
       else [])
    (notifications.map (fun a =>
      { type := a.type, title := incident.title, message := incident.description,
        recipient := a.recipient, status := a.status, error := a.error,
        sentAt := now }), true)

/-- The email block of the fan-out in isolation (what
sendIncidentNotifications pushes for the email channel). -/
def emailAttempts (env : ChannelEnv) : List Attempt :=
  if env.emailEnabled then
    match env.adminEmail with
    | some addr =>
        match env.emailSend with
        | none => [{ type := "email", recipient := addr, status := "sent",
                     error := none }]
        | some e => [{ type := "email", recipient := addr, status := "failed",
                       error := some e }]
    | none => []
  else []

/-- The WhatsApp block of the fan-out in isolation. -/
def whatsappAttempts (env : ChannelEnv) : List Attempt :=
  if env.whatsappEnabled then
    match env.adminPhone with
    | some phone =>
        if env.whatsappReady then
          match env.whatsappSend with
          | none => [{ type := "whatsapp", recipient := phone, status := "sent",
                       error := none }]
          | some e => [{ type := "whatsapp", recipient := phone, status := "failed",
                         error := some e }]
        else []
    | none => []
  else []

/-- The Telegram block of the fan-out in isolation: one attempt per
subscribed chat, each with its own catch; a failing subscriber query
yields the single failed "subscribers" entry. -/
def telegramAttempts (env : ChannelEnv) : List Attempt :=
  if env.telegramEnabled && env.telegramReady then
    match env.telegramQuery with
    | .error e => [{ type := "telegram", recipient := "subscribers",
                     status := "failed", error := some e }]
    | .ok subs =>
        (subs.filter (fun s => s.2)).map (fun s =>
          match env.telegramSend s.1 with
          | none => { type := "telegram", recipient := s.1, status := "sent",
                      error := none }
          | some e => { type := "telegram", recipient := s.1, status := "failed",
                        error := some e })
  else []

/-- Conversion of an attempt entry into the persisted notification row,
as done by the record-saving loop of sendIncidentNotifications. -/
def attemptToRecord (incident : Incident) (now : Nat) (a : Attempt) :
    NotificationRec :=
  { type := a.type, title := incident.title, message := incident.description,
    recipient := a.recipient, status := a.status, error := a.error, sentAt := now }

/-- The persisted store the ledger operates on: the incident and
notification collections, plus a counter supplying fresh incident ids. -/
structure DB where
  incidents : List Incident
  notifications : List NotificationRec
  nextId : Nat
  deriving Repr

/-- 30 minutes in milliseconds, the dedup window of handleIssue. -/
def dedupWindowMs : Nat := 30 * 60 * 1000

/-- The dedup query predicate of handleIssue (Incident.findOne): same
server, same issue type, status active, createdAt at or after
now - 30min.  Date values are milliseconds; truncated Nat subtraction
agrees with the JavaScript comparison because every createdAt is
nonnegative. -/
def matchesDedup (serverId : Nat) (issueType : String) (now : Nat)
    (i : Incident) : Bool :=
  i.serverId == serverId && i.type == issueType && i.status == "active" &&
    decide (now - dedupWindowMs ≤ i.createdAt)

/-- The Incident.findOne call of handleIssue over the store. -/
def findExisting (db : DB) (server : Server) (issue : Issue) (now : Nat) :
    Option Incident :=
  db.incidents.find? (matchesDedup server.id issue.type now)

/-- An in-memory mongoose incident document: the persisted schema fields
plus the ad-hoc updatedAt path that handleIssue assigns on the refresh
branch.  incidentSchema declares no updatedAt path and mongoose schemas
are strict by default, so save persists only the schema paths. -/
structure IncidentDoc where
  persisted : Incident
  updatedAt : Option Nat
  deriving Repr

/-- document.save() under the strict incidentSchema: the non-schema
updatedAt path is dropped; only the schema fields reach the store. -/
def IncidentDoc.save (d : IncidentDoc) : Incident := d.persisted

/-- ServerMonitor.handleIssue, src/connection/setup-email.js lines
892-954, on the happy path (no store error): if the dedup query finds an
active in-window incident of the same (server, type), it assigns
updatedAt on the document and saves it (the strict schema drops the
path), and returns without dispatching; otherwise it creates and
persists a new active incident, runs the notification fan-out, and
persists its records and the final notificationsSent flag.  The Bool
result tells whether a new incident was created (and hence the
dispatcher invoked).  The new incident row built on the empty branch is
factored out as newIncident (the new Incident literal of lines 910-922,
with the schema defaults status active, notificationsSent false,
createdAt now). -/
def newIncident (db : DB) (server : Server) (issue : Issue) (now : Nat) : Incident :=
  { id := db.nextId, serverId := server.id, type := issue.type,
    title := issue.title, description := issue.description,
    severity := issue.severity, status := "active", resolvedAt := none,
    data := some { serverName := server.name,
                   serverAddress := server.address ++ ":" ++ toString server.port,
                   timestamp := now },
    notificationsSent := false, createdAt := now }

def handleIssue (env : ChannelEnv) (db : DB) (server : Server) (issue : Issue)
    (now : Nat) : DB × Bool :=
  match findExisting db server issue now with
  | some existing =>
      let doc : IncidentDoc := { persisted := existing, updatedAt := some now }
      let saved := doc.save
      ({ db with incidents :=
           db.incidents.map (fun i => if i.id = existing.id then saved else i) },
       false)
  | none =>
      let incident := newIncident db server issue now
      let sent := sendIncidentNotifications env incident now
      let incident2 :=
        if sent.2 then { incident with notificationsSent := true } else incident
      ({ incidents := db.incidents ++ [incident2],
         notifications := db.notifications ++ sent.1,
         nextId := db.nextId + 1 }, true)

/-- The inner Telegram loop of sendRecoveryNotification: sends to each
subscribed chat in order with no per-recipient catch, so the first
throwing send aborts the rest of the loop (the error escapes to the
function's single outer catch).  Returns the successful deliveries and
the escaping error, if any. -/
def recoveryTelegramLoop (env : ChannelEnv) :
    List String → List (String × String) × Option String
  | [] => ([], none)
  | c :: rest =>
      match env.telegramSend c with
      | some e => ([], some e)
      | none =>
          let r := recoveryTelegramLoop env rest
          (("telegram", c) :: r.1, r.2)

/-- ServerMonitor.sendRecoveryNotification, src/connection/setup-email.js
lines 1145-1183: all sends run sequentially inside one try block with a
single outer catch and no per-attempt catch, so any thrown send aborts
every later send; no Notification rows are written on any path.  Result:
the (channel, recipient) pairs actually delivered, and the list of
notification rows persisted (always empty). -/
def sendRecoveryNotification (env : ChannelEnv) :
    List (String × String) × List NotificationRec :=
  let emailStep : List (String × String) × Option String :=
    if env.emailEnabled then
      match env.adminEmail with
      | some addr =>
          (match env.emailSend with
           | none => ([("email", addr)], none)
           | some e => ([], some e))
      | none => ([], none)
    else ([], none)
  match emailStep.2 with
  | some _ => (emailStep.1, [])
  | none =>
    let whatsappStep : List (String × String) × Option String :=
      if env.whatsappEnabled then
        match env.adminPhone with
        | some phone =>
            if env.whatsappReady then
              (match env.whatsappSend with
               | none => ([("whatsapp", phone)], none)
               | some e => ([], some e))
            else ([], none)
        | none => ([], none)
      else ([], none)
    match whatsappStep.2 with
    | some _ => (emailStep.1 ++ whatsappStep.1, [])
    | none =>
      let telegramStep : List (String × String) × Option String :=
        if env.telegramEnabled && env.telegramReady then
          match env.telegramQuery with
          | .error e => ([], some e)
          | .ok subs =>
              recoveryTelegramLoop env ((subs.filter (fun s => s.2)).map (fun s => s.1))
        else ([], none)
      (emailStep.1 ++ whatsappStep.1 ++ telegramStep.1, [])

/-- The joint state of one incident's row, its recovery watcher timer
(armed by setupRecoveryCheck, entered in incidentCheckers) and a counter
of recovery fan-outs triggered. -/
structure WatchSys where
  incident : Incident
  watcherArmed : Bool
  recoveryNotifications : Nat
  deriving Repr

/-- The administrative resolve endpoint, src/connection/setup-email.js
lines 1510-1529 (app.post /api/incidents/:id/resolve): it sets the row
to resolved with resolvedAt = now and saves; it never touches
incidentCheckers, so the watcher timer stays armed. -/
def externalResolve (s : WatchSys) (now : Nat) : WatchSys :=
  { s with incident :=
      { s.incident with status := "resolved", resolvedAt := some now } }

/-- One tick of the interval armed by ServerMonitor.setupRecoveryCheck,
src/connection/setup-email.js lines 1108-1143: it reloads the server and
inspects only lastStatus.online — never the incident's status.  When the
server is online it clears its own timer, sets the incident resolved
with resolvedAt = now, saves, and triggers the recovery fan-out;
otherwise it keeps polling. -/
def watcherTick (s : WatchSys) (serverOnline : Bool) (now : Nat) : WatchSys :=
  if s.watcherArmed then
    if serverOnline then
      { incident := { s.incident with status := "resolved", resolvedAt := some now }
        watcherArmed := false
        recoveryNotifications := s.recoveryNotifications + 1 }
    else s
  else s

/-- Lookup in the monitoring map (Map.get / Map.has combined), the map
being represented as an association list. -/
def findTimer (m : List (String × Nat)) (id : String) : Option Nat :=
  (m.find? (fun p => p.1 == id)).map (fun p => p.2)

/-- Removal of a key from the monitoring map (Map.delete, and the
overwrite part of Map.set). -/
def removeKey (m : List (String × Nat)) (id : String) : List (String × Nat) :=
  m.filter (fun p => !(p.1 == id))

/-- The scheduler state of ServerMonitor: the monitoring map from server
id to its interval timer, together with a ghost history of every timer
ever created (setInterval) and every timer handle cleared
(clearInterval); fresh handles come from the counter.  A timer is live
when it was created and never cleared. -/
structure Sched where
  monitoring : List (String × Nat)
  createdTimers : List (String × Nat)
  cancelled : List Nat
  nextTimer : Nat
  deriving Repr

/-- The timers created for a given server id that were never cleared:
these are the intervals that actually fire checks for that server. -/
def activeFor (s : Sched) (id : String) : List (String × Nat) :=
  s.createdTimers.filter (fun p => p.1 == id && !(s.cancelled.contains p.2))

/-- ServerMonitor.startMonitoring, src/connection/setup-email.js lines
735-753, restricted to its registry effect: if the map already holds a
timer for this server id it is cleared first, then a fresh interval is
created and stored under the id. -/
def startMonitoring (s : Sched) (id : String) : Sched :=
  let s1 :=
    match findTimer s.monitoring id with
    | some t => { s with cancelled := s.cancelled ++ [t] }
    | none => s
  { s1 with
      monitoring := (id, s1.nextTimer) :: removeKey s1.monitoring id
      createdTimers := s1.createdTimers ++ [(id, s1.nextTimer)]
      nextTimer := s1.nextTimer + 1 }

/-- ServerMonitor.stopMonitoring, src/connection/setup-email.js lines
1185-1190: when the map holds a timer for the id it is cleared and the
entry deleted; otherwise nothing happens. -/
def stopMonitoring (s : Sched) (id : String) : Sched :=
  match findTimer s.monitoring id with
  | some t =>
      { s with monitoring := removeKey s.monitoring id
               cancelled := s.cancelled ++ [t] }
  | none => s

/-- Well-formedness of the scheduler state, established by the empty
initial state (constructor of ServerMonitor) and preserved by
startMonitoring and stopMonitoring: timer handles are fresh and unique,
every live timer is the one registered for its server id, and every
registry entry is a live created timer under a duplicate-free key set. -/
structure SchedWF (s : Sched) : Prop where
  created_lt : ∀ p ∈ s.createdTimers, p.2 < s.nextTimer
  cancelled_lt : ∀ t ∈ s.cancelled, t < s.nextTimer
  timers_nodup : (s.createdTimers.map (fun p => p.2)).Nodup
  live_registered : ∀ p ∈ s.createdTimers, p.2 ∉ s.cancelled →
    findTimer s.monitoring p.1 = some p.2
  registered_live : ∀ q ∈ s.monitoring, q ∈ s.createdTimers ∧ q.2 ∉ s.cancelled
  keys_nodup : (s.monitoring.map (fun p => p.1)).Nodup

/-! ## Theorems -/

/-- C9: every invocation of checkServer, on probe success or failure,
produces exactly one status snapshot and one stats update: totalChecks
grows by exactly 1; uptimeChecks grows by 1 exactly when the result is
healthy; totalDowntime grows by exactly the check interval exactly when
the result is unhealthy; and a probe failure yields an offline snapshot
with the error text populated instead of an unhandled fault. -/
theorem checkServer_stats_accounting (stats : Stats) (interval : Nat)
    (outcome : ProbeOutcome) (now : Nat) :
    (checkServer stats interval outcome now).1.totalChecks = stats.totalChecks + 1 ∧
    (checkServer stats interval outcome now).1.uptimeChecks = stats.uptimeChecks +
      (if (checkServer stats interval outcome now).2.online then 1 else 0) ∧
    (checkServer stats interval outcome now).1.totalDowntime = stats.totalDowntime +
      (if (checkServer stats interval outcome now).2.online then 0 else interval) ∧
    (∀ e rt, outcome = .failure e rt →
      (checkServer stats interval outcome now).2.online = false ∧
      (checkServer stats interval outcome now).2.error = some e ∧
      (checkServer stats interval outcome now).2.responseTime = rt) := by
  cases outcome with
  | success data rt => cases h : data.online <;> simp [checkServer, h]
  | failure e rt => simp [checkServer]

/-- Witness for C9 at a concrete failed probe. -/
theorem checkServer_stats_accounting_witness :
    (checkServer { totalChecks := 5, uptimeChecks := 3, totalDowntime := 20 } 10
      (.failure "timeout of 10000ms exceeded" 42) 1000).2.error =
      some "timeout of 10000ms exceeded" :=
  ((checkServer_stats_accounting { totalChecks := 5, uptimeChecks := 3, totalDowntime := 20 }
    10 (.failure "timeout of 10000ms exceeded" 42) 1000).2.2.2
    "timeout of 10000ms exceeded" 42 rfl).2.1

/-- C10: a successful probe response without version metadata gets the
default version object with protocol -1; since -1 is truthy and below
the hardcoded threshold 671, the detector raises the
version_mismatch/info issue even for a healthy, fast, non-full result,
and it is the only issue raised. -/
theorem missing_version_defaults_to_mismatch (stats : Stats)
    (interval now rt : Nat) (data : ProbeData) (name : String)
    (hv : data.version = none) (ho : data.online = true) (hrt : rt ≤ 1000)
    (hp : ∀ p, data.players = some p → ¬(p.online = p.max ∧ 0 < p.max)) :
    (checkServer stats interval (.success data rt) now).2.version =
      some { name := "Unknown", protocol := -1 } ∧
    checkForIssues name (checkServer stats interval (.success data rt) now).2 =
      [{ type := "version_mismatch", severity := "info", title := "Old Version",
         description := "Server " ++ name ++ " is running an old version: " ++
           "Unknown" }] := by
  have hnot : ¬ rt > 1000 := by omega
  cases hpl : data.players with
  | none =>
      constructor
      · simp [checkServer, hv]
      · simp [checkServer, checkForIssues, hv, ho, hnot, hpl]
  | some p =>
      have hp2 := hp p hpl
      constructor
      · simp [checkServer, hv]
      · simp [checkServer, checkForIssues, hv, ho, hnot, hpl, hp2]

/-- Witness for C10 at a concrete response with no version field. -/
theorem missing_version_defaults_to_mismatch_witness :
    checkForIssues "srv"
      (checkServer { totalChecks := 0, uptimeChecks := 0, totalDowntime := 0 } 10
        (.success { online := true, players := some { online := 2, max := 20 },
                    version := none } 50) 700).2 =
      [{ type := "version_mismatch", severity := "info", title := "Old Version",
         description := "Server " ++ "srv" ++ " is running an old version: " ++
           "Unknown" }] :=
  (missing_version_defaults_to_mismatch
    { totalChecks := 0, uptimeChecks := 0, totalDowntime := 0 } 10 700 50
    { online := true, players := some { online := 2, max := 20 }, version := none }
    "srv" rfl rfl (by decide) (by intro p hp; cases hp; decide)).2

/-- A concrete offline incident with its recovery watcher armed, used to
exercise the watcher transitions. -/
def offlineIncidentSys : WatchSys :=
  { incident :=
      { id := 7, serverId := 1, type := "server_offline", title := "Server Offline",
        description := "Server srv is not responding. Error: timeout",
        severity := "critical", status := "active", resolvedAt := none,
        data := none, notificationsSent := true, createdAt := 0 }
    watcherArmed := true
    recoveryNotifications := 0 }

/-- C2 counterexample: resolving the incident through the administrative
endpoint leaves the recovery watcher armed (the endpoint never touches
incidentCheckers), and the next tick that sees the server online
resolves the already-resolved incident again — overwriting resolvedAt
from 100 to 200 — and triggers another recovery fan-out, contrary to the
claim that the watcher checks the incident status and neither resolves
nor notifies again. -/
theorem watcher_double_resolve_cex :
    (externalResolve offlineIncidentSys 100).incident.status = "resolved" ∧
    (externalResolve offlineIncidentSys 100).incident.resolvedAt = some 100 ∧
    (externalResolve offlineIncidentSys 100).watcherArmed = true ∧
    (watcherTick (externalResolve offlineIncidentSys 100) true 200).incident.resolvedAt
      = some 200 ∧
    (watcherTick (externalResolve offlineIncidentSys 100) true 200).recoveryNotifications
      = 1 := by
  refine ⟨rfl, rfl, rfl, rfl, rfl⟩

/-- C2 (amended): the recovery watcher consults only the server's latest
online flag, never the incident's status, and external resolution does
not cancel it: from any armed watcher state, resolving externally keeps
the watcher armed, and a subsequent tick that observes the server online
re-resolves the incident (overwriting resolvedAt with the tick time) and
triggers one more recovery fan-out. -/
theorem watcher_ignores_incident_status (s : WatchSys) (t1 t2 : Nat)
    (h : s.watcherArmed = true) :
    (externalResolve s t1).watcherArmed = true ∧
    (externalResolve s t1).incident.status = "resolved" ∧
    (watcherTick (externalResolve s t1) true t2).incident.status = "resolved" ∧
    (watcherTick (externalResolve s t1) true t2).incident.resolvedAt = some t2 ∧
    (watcherTick (externalResolve s t1) true t2).recoveryNotifications =
      s.recoveryNotifications + 1 ∧
    (watcherTick (externalResolve s t1) true t2).watcherArmed = false := by
  simp [externalResolve, watcherTick, h]

/-- Witness for the amended C2 theorem at the concrete armed state. -/
theorem watcher_ignores_incident_status_witness :
    (watcherTick (externalResolve offlineIncidentSys 100) true 200).recoveryNotifications
      = offlineIncidentSys.recoveryNotifications + 1 :=
  (watcher_ignores_incident_status offlineIncidentSys 100 200 rfl).2.2.2.2.1

/-- A channel environment where email is enabled and throws, WhatsApp is
enabled, ready and would deliver, and Telegram is disabled. -/
def recoveryCexEnv : ChannelEnv :=
  { emailEnabled := true, telegramEnabled := false, whatsappEnabled := true,
    adminEmail := some "admin@example.org", adminPhone := some "6281234567890",
    notifyCritical := true, notifyWarning := true, notifyInfo := true,
    whatsappReady := true, telegramReady := false,
    emailSend := some "smtp connection refused", whatsappSend := none,
    telegramQuery := .ok [], telegramSend := fun _ => none }

/-- A concrete critical incident used to contrast the two fan-outs. -/
def recoveryCexIncident : Incident :=
  { id := 3, serverId := 1, type := "server_offline", title := "Server Offline",
    description := "Server srv is not responding. Error: timeout",
    severity := "critical", status := "resolved", resolvedAt := some 400,
    data := none, notificationsSent := true, createdAt := 0 }

/-- C7 counterexample: with email failing and WhatsApp ready to deliver,
the incident fan-out makes both attempts and records both outcomes, but
the recovery fan-out delivers nothing — the email failure escapes to the
single outer catch and aborts the WhatsApp send — and writes zero
notification rows, so recovery does not follow the incident fan-out
contract. -/
theorem recovery_fanout_cex :
    sendRecoveryNotification recoveryCexEnv = ([], []) ∧
    sendIncidentNotifications recoveryCexEnv recoveryCexIncident 500 =
      ([{ type := "email", title := "Server Offline",
          message := "Server srv is not responding. Error: timeout",
          recipient := "admin@example.org", status := "failed",
          error := some "smtp connection refused", sentAt := 500 },
        { type := "whatsapp", title := "Server Offline",
          message := "Server srv is not responding. Error: timeout",
          recipient := "6281234567890", status := "sent",
          error := none, sentAt := 500 }], true) := by
  refine ⟨rfl, rfl⟩

/-- C2-C7 helper: the recovery fan-out persists no notification rows on
any path. -/
theorem sendRecoveryNotification_records_empty (env : ChannelEnv) :
    (sendRecoveryNotification env).2 = [] := by
  unfold sendRecoveryNotification
  repeat' split
  all_goals rfl

/-- C7 (amended): the recovery notification does not follow the incident
fan-out contract: no severity gating is consulted (the function reads no
notify settings), sends run sequentially inside one try block so a
thrown email failure aborts every remaining send, and no
NotificationRecord is ever written; only the message template signals
recovery. -/
theorem recovery_fanout_not_isolated (env : ChannelEnv) :
    (sendRecoveryNotification env).2 = [] ∧
    (∀ a e, env.emailEnabled = true → env.adminEmail = some a →
      env.emailSend = some e → sendRecoveryNotification env = ([], [])) := by
  refine ⟨sendRecoveryNotification_records_empty env, ?_⟩
  intro a e h1 h2 h3
  simp [sendRecoveryNotification, h1, h2, h3]

/-- Witness for the amended C7 theorem at the concrete environment. -/
theorem recovery_fanout_not_isolated_witness :
    sendRecoveryNotification recoveryCexEnv = ([], []) :=
  (recovery_fanout_not_isolated recoveryCexEnv).2 "admin@example.org"
    "smtp connection refused" rfl rfl rfl

/-- A channel environment with every delivery channel disabled and the
default severity settings (critical and warning on, info off). -/
def quietEnv : ChannelEnv :=
  { emailEnabled := false, telegramEnabled := false, whatsappEnabled := false,
    adminEmail := none, adminPhone := none,
    notifyCritical := true, notifyWarning := true, notifyInfo := false,
    whatsappReady := false, telegramReady := false,
    emailSend := none, whatsappSend := none,
    telegramQuery := .ok [], telegramSend := fun _ => none }

/-- A concrete monitored server. -/
def monitoredServer : Server :=
  { id := 1, name := "srv", address := "play.example.org", port := 19132,
    checkInterval := 10 }

/-- The offline issue the detector yields for that server on a timeout. -/
def offlineIssue : Issue :=
  { type := "server_offline", severity := "critical", title := "Server Offline",
    description := offlineDescription "srv" (some "timeout") }

/-- C6: two detections of the same (server, kind) five minutes apart.
The second detection finds the active in-window incident and runs the
refresh branch, which assigns updatedAt on the document and saves — but
incidentSchema declares no updatedAt path, so the strict-schema save
drops it and the persisted row after the second detection is identical
to the row after the first: no timestamp is advanced in the store,
contrary to the claim (and the spec scenario).  The final conjunct
exhibits the mechanism: saving a document with the ad-hoc updatedAt set
persists exactly the schema fields of the unchanged row. -/
theorem refresh_does_not_persist_updatedAt :
    (handleIssue quietEnv { incidents := [], notifications := [], nextId := 0 }
        monitoredServer offlineIssue 0).1.incidents.length = 1 ∧
    (handleIssue quietEnv
        (handleIssue quietEnv { incidents := [], notifications := [], nextId := 0 }
          monitoredServer offlineIssue 0).1
        monitoredServer offlineIssue 300000).2 = false ∧
    (handleIssue quietEnv
        (handleIssue quietEnv { incidents := [], notifications := [], nextId := 0 }
          monitoredServer offlineIssue 0).1
        monitoredServer offlineIssue 300000).1.incidents =
      (handleIssue quietEnv { incidents := [], notifications := [], nextId := 0 }
        monitoredServer offlineIssue 0).1.incidents ∧
    (∀ i : Incident, ∀ t : Option Nat,
      IncidentDoc.save { persisted := i, updatedAt := t } = i) := by
  refine ⟨by decide, by decide, by decide, fun i t => rfl⟩

/-- The severity gate, phrased on the dispatcher: when the incident's
severity is gated off, sendIncidentNotifications returns before any
channel block runs — no rows, flag untouched. -/
theorem sendIncidentNotifications_gated (env : ChannelEnv) (inc : Incident)
    (now : Nat) (h : severityEnabled env inc.severity = false) :
    sendIncidentNotifications env inc now = ([], false) := by
  unfold severityEnabled at h
  unfold sendIncidentNotifications
  rw [h]
  rfl

/-- C4: an issue whose severity is gated off (for example an info issue
with notify_info false) is still turned into a persisted active incident
by handleIssue, but the dispatcher returns immediately: zero
NotificationRecords are written (the store's notification collection is
unchanged) and no channel send is attempted — the gate returns before
any channel block, so the flag stays false and the record list is
empty. -/
theorem gated_severity_creates_incident_no_records
    (env : ChannelEnv) (db : DB) (server : Server) (issue : Issue) (now : Nat)
    (hgate : severityEnabled env issue.severity = false)
    (hnone : findExisting db server issue now = none) :
    (∀ inc : Incident, inc.severity = issue.severity →
      sendIncidentNotifications env inc now = ([], false)) ∧
    (handleIssue env db server issue now).1.notifications = db.notifications ∧
    (handleIssue env db server issue now).1.incidents = db.incidents ++
      [newIncident db server issue now] := by
  have hsend : ∀ inc : Incident, inc.severity = issue.severity →
      sendIncidentNotifications env inc now = ([], false) := by
    intro inc hs
    apply sendIncidentNotifications_gated
    rw [hs]
    exact hgate
  have hrec : sendIncidentNotifications env (newIncident db server issue now) now =
      ([], false) := hsend _ rfl
  refine ⟨hsend, ?_, ?_⟩ <;>
    simp [handleIssue, hnone, hrec]

/-- An info-severity issue (the version_mismatch kind). -/
def infoIssue : Issue :=
  { type := "version_mismatch", severity := "info", title := "Old Version",
    description := "Server srv is running an old version: Unknown" }

/-- Witness for C4: with the default settings (notify_info false) an
info issue writes no notification rows. -/
theorem gated_severity_creates_incident_no_records_witness :
    (handleIssue quietEnv { incidents := [], notifications := [], nextId := 0 }
      monitoredServer infoIssue 5).1.notifications = [] :=
  (gated_severity_creates_incident_no_records quietEnv
    { incidents := [], notifications := [], nextId := 0 }
    monitoredServer infoIssue 5 (by decide) (by decide)).2.1

/-- The incident rows for (serverId, issueType) that are active and
created inside the 30-minute window at the given time: exactly the rows
the dedup query of handleIssue ranges over. -/
def activeInWindow (db : DB) (serverId : Nat) (issueType : String) (now : Nat) :
    List Incident :=
  db.incidents.filter (matchesDedup serverId issueType now)

/-- C1: handleIssue preserves the dedup invariant.  From a store whose
incident ids are distinct and which holds at most one active in-window
incident per (server, kind) pair: a detection that finds an existing
active in-window incident changes no incident row, writes no
notification row and dispatches nothing; a new incident is created
exactly when no active in-window incident of that (server, kind) exists;
and afterwards the store again holds at most one active in-window
incident per pair. -/
theorem handleIssue_dedup_invariant
    (env : ChannelEnv) (db : DB) (server : Server) (issue : Issue) (now : Nat)
    (hids : (db.incidents.map (fun i => i.id)).Nodup)
    (hinv : ∀ sid ty, (activeInWindow db sid ty now).length ≤ 1) :
    (∀ ex, findExisting db server issue now = some ex →
      (handleIssue env db server issue now).1.incidents = db.incidents ∧
      (handleIssue env db server issue now).1.notifications = db.notifications ∧
      (handleIssue env db server issue now).2 = false) ∧
    ((handleIssue env db server issue now).2 = true ↔
      activeInWindow db server.id issue.type now = []) ∧
    (∀ sid ty,
      (activeInWindow (handleIssue env db server issue now).1 sid ty now).length ≤ 1) := by
  cases h : findExisting db server issue now with
  | some ex =>
      have hmem : ex ∈ db.incidents := List.mem_of_find?_eq_some h
      have hmap : db.incidents.map (fun i => if i.id = ex.id then ex else i) =
          db.incidents := by
        have hcongr : ∀ i ∈ db.incidents,
            (fun i => if i.id = ex.id then ex else i) i = (fun i => i) i := by
          intro i hi
          by_cases hid : i.id = ex.id
          · simp only [if_pos hid]
            exact List.inj_on_of_nodup_map hids hmem hi hid.symm
          · simp only [if_neg hid]
        rw [List.map_congr_left hcongr, List.map_id']
      have hr : handleIssue env db server issue now =
          ({ db with incidents :=
              db.incidents.map (fun i => if i.id = ex.id then ex else i) }, false) := by
        unfold handleIssue
        rw [h]
        rfl
      have hinc : (handleIssue env db server issue now).1.incidents = db.incidents := by
        rw [hr]
        exact hmap
      have hexmem : ex ∈ activeInWindow db server.id issue.type now := by
        unfold activeInWindow
        exact List.mem_filter.mpr ⟨hmem, List.find?_some h⟩
      refine ⟨?_, ?_, ?_⟩
      · intro ex2 _
        exact ⟨hinc, by rw [hr], by rw [hr]⟩
      · constructor
        · intro habs
          rw [hr] at habs
          cases habs
        · intro hempty
          rw [hempty] at hexmem
          cases hexmem
      · intro sid ty
        unfold activeInWindow
        rw [hinc]
        exact hinv sid ty
  | none =>
      have hnone : ∀ a ∈ db.incidents,
          ¬ matchesDedup server.id issue.type now a = true := by
        unfold findExisting at h
        exact List.find?_eq_none.mp h
      have hempty : activeInWindow db server.id issue.type now = [] :=
        List.filter_eq_nil_iff.mpr hnone
      refine ⟨?_, ?_, ?_⟩
      · intro ex hex
        cases hex
      · refine iff_of_true ?_ hempty
        unfold handleIssue
        rw [h]
      · intro sid ty
        unfold activeInWindow handleIssue
        rw [h]
        dsimp only
        rw [List.filter_append, List.length_append]
        have hq : ∀ b : Bool, matchesDedup sid ty now
            (if b = true then
              { newIncident db server issue now with notificationsSent := true }
             else newIncident db server issue now) =
            ((server.id == sid) && (issue.type == ty)) := by
          intro b
          cases b <;>
            simp [matchesDedup, newIncident, Nat.sub_le, Bool.and_assoc]
        by_cases hmatch : ((server.id == sid) && (issue.type == ty)) = true
        · have hsid : server.id = sid := by
            have := (Bool.and_eq_true _ _).mp hmatch
            exact beq_iff_eq.mp this.1
          have hty : issue.type = ty := by
            have := (Bool.and_eq_true _ _).mp hmatch
            exact beq_iff_eq.mp this.2
          have hfil : db.incidents.filter (matchesDedup sid ty now) = [] := by
            rw [← hsid, ← hty]
            exact hempty
          rw [hfil]
          simp only [List.length_nil, Nat.zero_add]
          calc (List.filter (matchesDedup sid ty now) _).length ≤ _ :=
                List.length_filter_le _ _
            _ ≤ 1 := by simp
        · have hfil2 : List.filter (matchesDedup sid ty now)
              [if (sendIncidentNotifications env (newIncident db server issue now) now).2 = true then
                 { newIncident db server issue now with notificationsSent := true }
               else newIncident db server issue now] = [] := by
            simp only [List.filter, hq]
            rw [Bool.not_eq_true] at hmatch
            rw [hmatch]
          rw [hfil2]
          simp only [List.length_nil, Nat.add_zero]
          exact hinv sid ty

/-- Witness for C1 on the empty store: after handling an offline issue,
at most one active in-window incident exists for the pair. -/
theorem handleIssue_dedup_invariant_witness :
    (activeInWindow
      (handleIssue quietEnv { incidents := [], notifications := [], nextId := 0 }
        monitoredServer offlineIssue 0).1 1 "server_offline" 0).length ≤ 1 :=
  (handleIssue_dedup_invariant quietEnv
    { incidents := [], notifications := [], nextId := 0 }
    monitoredServer offlineIssue 0 (by decide)
    (fun sid ty => by simp [activeInWindow])).2.2 1 "server_offline"

/-- The condition of the offline rule of checkForIssues. -/
def offlineCond (status : Status) : Bool := !status.online

/-- The condition of the latency rule of checkForIssues. -/
def latencyCond (status : Status) : Bool := decide (status.responseTime > 1000)

/-- The condition of the capacity rule of checkForIssues (players
present, full, with positive capacity). -/
def capacityCond (status : Status) : Bool :=
  match status.players with
  | some p => decide (p.online = p.max ∧ p.max > 0)
  | none => false

/-- The condition of the version rule of checkForIssues (version
present, protocol truthy, below the hardcoded threshold 671). -/
def versionCond (status : Status) : Bool :=
  match status.version with
  | some v => decide (v.protocol ≠ 0 ∧ v.protocol < 671)
  | none => false

/-- The issue the offline rule pushes. -/
def offlineIssueOf (name : String) (status : Status) : Issue :=
  { type := "server_offline", severity := "critical", title := "Server Offline",
    description := offlineDescription name status.error }

/-- The issue the latency rule pushes. -/
def latencyIssueOf (name : String) (status : Status) : Issue :=
  { type := "high_latency", severity := "warning", title := "High Latency",
    description := "Server " ++ name ++ " has high latency: " ++
      toString status.responseTime ++ "ms" }

/-- The issue the capacity rule pushes (its description is only
meaningful when players are present, which the rule condition
guarantees). -/
def capacityIssueOf (name : String) (status : Status) : Issue :=
  { type := "full_capacity", severity := "warning", title := "Server Full",
    description :=
      match status.players with
      | some p => "Server " ++ name ++ " is at full capacity (" ++
          toString p.online ++ "/" ++ toString p.max ++ ")"
      | none => "" }

/-- The issue the version rule pushes (description meaningful when a
version is present, which the rule condition guarantees). -/
def versionIssueOf (name : String) (status : Status) : Issue :=
  { type := "version_mismatch", severity := "info", title := "Old Version",
    description :=
      match status.version with
      | some v => "Server " ++ name ++ " is running an old version: " ++ v.name
      | none => "" }

/-- The detector output decomposes into four independent rule segments,
each guarded by its own condition. -/
theorem checkForIssues_decomp (name : String) (status : Status) :
    checkForIssues name status =
      (if offlineCond status then [offlineIssueOf name status] else []) ++
      (if latencyCond status then [latencyIssueOf name status] else []) ++
      (if capacityCond status then [capacityIssueOf name status] else []) ++
      (if versionCond status then [versionIssueOf name status] else []) := by
  obtain ⟨online, players, version, error, rt, lc⟩ := status
  rcases players with _ | p <;> rcases version with _ | v <;>
    simp only [checkForIssues, offlineCond, latencyCond, capacityCond, versionCond,
      offlineIssueOf, latencyIssueOf, capacityIssueOf, versionIssueOf,
      decide_eq_true_eq] <;> simp

/-- C5: the detector is a pure function of (server, probe result) and
returns exactly the issues whose rule condition holds, each matching
rule contributing exactly one issue independently of the others:
an unhealthy result yields the offline/critical issue, latency over
1000ms the high_latency/warning issue, full positive occupancy the
full_capacity/warning issue, a truthy protocol below 671 the
version_mismatch/info issue; the result length is the number of matching
rules (all matching rules fire), and a healthy, low-latency, non-full,
current-version result yields no issue.  (The spec names the offline
kind target_offline; the source string is server_offline.) -/
theorem checkForIssues_exact (name : String) (status : Status) :
    ((∃ i ∈ checkForIssues name status,
        i.type = "server_offline" ∧ i.severity = "critical") ↔
      offlineCond status = true) ∧
    ((∃ i ∈ checkForIssues name status,
        i.type = "high_latency" ∧ i.severity = "warning") ↔
      latencyCond status = true) ∧
    ((∃ i ∈ checkForIssues name status,
        i.type = "full_capacity" ∧ i.severity = "warning") ↔
      capacityCond status = true) ∧
    ((∃ i ∈ checkForIssues name status,
        i.type = "version_mismatch" ∧ i.severity = "info") ↔
      versionCond status = true) ∧
    (checkForIssues name status).length =
      (offlineCond status).toNat + (latencyCond status).toNat +
      (capacityCond status).toNat + (versionCond status).toNat ∧
    (offlineCond status = false → latencyCond status = false →
      capacityCond status = false → versionCond status = false →
      checkForIssues name status = []) := by
  rw [checkForIssues_decomp]
  cases h1 : offlineCond status <;> cases h2 : latencyCond status <;>
    cases h3 : capacityCond status <;> cases h4 : versionCond status <;>
      simp [offlineIssueOf, latencyIssueOf, capacityIssueOf, versionIssueOf]

/-- A healthy, fast, non-full, current-version status snapshot. -/
def healthyStatus : Status :=
  { online := true, players := some { online := 2, max := 20 },
    version := some { name := "1.21.1", protocol := 700 }, error := none,
    responseTime := 50, lastCheck := 0 }

/-- Witness for C5: the detector raises nothing for a healthy,
low-latency, non-full, current-version result. -/
theorem checkForIssues_exact_witness :
    checkForIssues "srv" healthyStatus = [] :=
  (checkForIssues_exact "srv" healthyStatus).2.2.2.2.2 rfl rfl rfl rfl

/-- The fan-out equals the three channel blocks in push order, mapped to
persisted rows, whenever the severity gate passes; and nothing
otherwise. -/
theorem sendIncidentNotifications_eq (env : ChannelEnv) (inc : Incident)
    (now : Nat) :
    sendIncidentNotifications env inc now =
      if severityEnabled env inc.severity then
        (((emailAttempts env ++ whatsappAttempts env) ++ telegramAttempts env).map
          (attemptToRecord inc now), true)
      else ([], false) := by
  unfold sendIncidentNotifications severityEnabled
  cases h : (if inc.severity = "critical" then env.notifyCritical
    else if inc.severity = "warning" then env.notifyWarning
    else if inc.severity = "info" then env.notifyInfo else false) with
  | false => rfl
  | true => rfl

/-- Every entry the email block pushes is an email entry. -/
theorem emailAttempts_type (env : ChannelEnv) :
    ∀ a ∈ emailAttempts env, a.type = "email" := by
  cases h1 : env.emailEnabled <;> rcases h2 : env.adminEmail with _ | addr <;>
    rcases h3 : env.emailSend with _ | e <;>
    simp [emailAttempts, h1, h2, h3]

/-- Every entry the WhatsApp block pushes is a whatsapp entry. -/
theorem whatsappAttempts_type (env : ChannelEnv) :
    ∀ a ∈ whatsappAttempts env, a.type = "whatsapp" := by
  cases h1 : env.whatsappEnabled <;> rcases h2 : env.adminPhone with _ | phone <;>
    cases h3 : env.whatsappReady <;> rcases h4 : env.whatsappSend with _ | e <;>
    simp [whatsappAttempts, h1, h2, h3, h4]

/-- Every entry the Telegram block pushes is a telegram entry. -/
theorem telegramAttempts_type (env : ChannelEnv) :
    ∀ a ∈ telegramAttempts env, a.type = "telegram" := by
  cases h1 : env.telegramEnabled <;> cases h2 : env.telegramReady <;>
    simp [telegramAttempts, h1, h2]
  rcases h3 : env.telegramQuery with e | subs
  · simp
  · intro a ha
    simp only [List.mem_map] at ha
    obtain ⟨s, _, hs⟩ := ha
    cases h4 : env.telegramSend s.1 <;> simp [h4] at hs <;> simp [← hs]

/-- Every entry any block pushes records its outcome: status sent with
no error, or status failed with the thrown message. -/
theorem attempts_outcome (env : ChannelEnv) :
    ∀ a ∈ (emailAttempts env ++ whatsappAttempts env) ++ telegramAttempts env,
      (a.status = "sent" ∧ a.error = none) ∨
      (a.status = "failed" ∧ ∃ e, a.error = some e) := by
  intro a ha
  rw [List.mem_append, List.mem_append] at ha
  rcases ha with (hE | hW) | hTg
  · cases h1 : env.emailEnabled <;> rcases h2 : env.adminEmail with _ | addr <;>
      rcases h3 : env.emailSend with _ | e <;>
      simp [emailAttempts, h1, h2, h3] at hE <;> simp [hE]
  · cases h1 : env.whatsappEnabled <;> rcases h2 : env.adminPhone with _ | phone <;>
      cases h3 : env.whatsappReady <;> rcases h4 : env.whatsappSend with _ | e <;>
      simp [whatsappAttempts, h1, h2, h3, h4] at hW <;> simp [hW]
  · cases h1 : env.telegramEnabled <;> cases h2 : env.telegramReady <;>
      simp [telegramAttempts, h1, h2] at hTg
    rcases h3 : env.telegramQuery with e | subs <;> rw [h3] at hTg
    · simp at hTg
      simp [hTg]
    · simp only [List.mem_map] at hTg
      obtain ⟨s, _, hs⟩ := hTg
      cases h4 : env.telegramSend s.1 <;> simp [h4] at hs <;> simp [← hs]

/-- Filtering a mapped list is unchanged when the two maps agree on
every element except ones both filtered out. -/
theorem filter_map_congr {α β : Type} (p : β → Bool) (f g : α → β)
    (l : List α)
    (h : ∀ a ∈ l, f a = g a ∨ (p (f a) = false ∧ p (g a) = false)) :
    (l.map f).filter p = (l.map g).filter p := by
  induction l with
  | nil => rfl
  | cons a t ih =>
      have ha := h a (List.mem_cons_self a t)
      have ht := fun x hx => h x (List.mem_cons_of_mem a hx)
      simp only [List.map_cons, List.filter_cons]
      rcases ha with ha | ⟨h1, h2⟩
      · rw [ha]
        cases hp : p (g a) <;> simp [hp, ih ht]
      · simp [h1, h2, ih ht]

/-- A mapped attempt list passes a filter untouched when every attempt
maps to a kept row. -/
theorem map_filter_keep_all (inc : Incident) (now : Nat)
    (p : NotificationRec → Bool) (l : List Attempt)
    (h : ∀ a ∈ l, p (attemptToRecord inc now a) = true) :
    (l.map (attemptToRecord inc now)).filter p = l.map (attemptToRecord inc now) := by
  rw [List.filter_eq_self]
  intro n hn
  obtain ⟨a, ha, rfl⟩ := List.mem_map.mp hn
  exact h a ha

/-- A mapped attempt list is wiped by a filter when every attempt maps
to a dropped row. -/
theorem map_filter_keep_none (inc : Incident) (now : Nat)
    (p : NotificationRec → Bool) (l : List Attempt)
    (h : ∀ a ∈ l, p (attemptToRecord inc now a) = false) :
    (l.map (attemptToRecord inc now)).filter p = [] := by
  rw [List.filter_eq_nil_iff]
  intro n hn
  obtain ⟨a, ha, rfl⟩ := List.mem_map.mp hn
  simp [h a ha]

/-- C3: for an incident whose severity passes the gate, the fan-out
makes every (channel, recipient) attempt independently: the rows are
exactly the three channel blocks mapped to persisted rows (one row per
attempt, with its outcome: sent with no error, or failed with the thrown
message); changing the email outcome or the WhatsApp outcome changes no
other channel's rows; changing one Telegram recipient's outcome changes
no other row; and the notificationsSent flag is set to true regardless
of individual failures. -/
theorem fanout_isolation (env : ChannelEnv) (inc : Incident) (now : Nat)
    (hsev : severityEnabled env inc.severity = true) :
    (sendIncidentNotifications env inc now).2 = true ∧
    (sendIncidentNotifications env inc now).1 =
      ((emailAttempts env ++ whatsappAttempts env) ++ telegramAttempts env).map
        (attemptToRecord inc now) ∧
    (∀ e, ((sendIncidentNotifications { env with emailSend := e } inc now).1.filter
        (fun n => !(n.type == "email"))) =
      ((sendIncidentNotifications env inc now).1.filter
        (fun n => !(n.type == "email")))) ∧
    (∀ w, ((sendIncidentNotifications { env with whatsappSend := w } inc now).1.filter
        (fun n => !(n.type == "whatsapp"))) =
      ((sendIncidentNotifications env inc now).1.filter
        (fun n => !(n.type == "whatsapp")))) ∧
    (∀ f c, (∀ c2, c2 ≠ c → f c2 = env.telegramSend c2) →
      ((sendIncidentNotifications { env with telegramSend := f } inc now).1.filter
          (fun n => !(n.type == "telegram" && n.recipient == c))) =
        ((sendIncidentNotifications env inc now).1.filter
          (fun n => !(n.type == "telegram" && n.recipient == c)))) ∧
    (∀ n ∈ (sendIncidentNotifications env inc now).1,
      (n.status = "sent" ∧ n.error = none) ∨
      (n.status = "failed" ∧ ∃ e, n.error = some e)) := by
  have hmain : sendIncidentNotifications env inc now =
      (((emailAttempts env ++ whatsappAttempts env) ++ telegramAttempts env).map
        (attemptToRecord inc now), true) := by
    rw [sendIncidentNotifications_eq, hsev]
    rfl
  refine ⟨by rw [hmain], by rw [hmain], ?_, ?_, ?_, ?_⟩
  · intro e
    have hvar : sendIncidentNotifications { env with emailSend := e } inc now =
        (((emailAttempts { env with emailSend := e } ++ whatsappAttempts env) ++
          telegramAttempts env).map (attemptToRecord inc now), true) := by
      rw [sendIncidentNotifications_eq]
      have hs2 : severityEnabled { env with emailSend := e } inc.severity = true := hsev
      rw [hs2]
      rfl
    rw [hmain, hvar]
    simp only [List.map_append, List.filter_append]
    have h1 := map_filter_keep_none inc now (fun n => !(n.type == "email"))
      (emailAttempts { env with emailSend := e })
      (by
        intro a ha
        have := emailAttempts_type { env with emailSend := e } a ha
        simp [attemptToRecord, this])
    have h2 := map_filter_keep_none inc now (fun n => !(n.type == "email"))
      (emailAttempts env)
      (by
        intro a ha
        have := emailAttempts_type env a ha
        simp [attemptToRecord, this])
    rw [h1, h2]
  · intro w
    have hvar : sendIncidentNotifications { env with whatsappSend := w } inc now =
        (((emailAttempts env ++ whatsappAttempts { env with whatsappSend := w }) ++
          telegramAttempts env).map (attemptToRecord inc now), true) := by
      rw [sendIncidentNotifications_eq]
      have hs2 : severityEnabled { env with whatsappSend := w } inc.severity = true := hsev
      rw [hs2]
      rfl
    rw [hmain, hvar]
    simp only [List.map_append, List.filter_append]
    have h1 := map_filter_keep_none inc now (fun n => !(n.type == "whatsapp"))
      (whatsappAttempts { env with whatsappSend := w })
      (by
        intro a ha
        have := whatsappAttempts_type { env with whatsappSend := w } a ha
        simp [attemptToRecord, this])
    have h2 := map_filter_keep_none inc now (fun n => !(n.type == "whatsapp"))
      (whatsappAttempts env)
      (by
        intro a ha
        have := whatsappAttempts_type env a ha
        simp [attemptToRecord, this])
    rw [h1, h2]
  · intro f c hfc
    have hvar : sendIncidentNotifications { env with telegramSend := f } inc now =
        (((emailAttempts env ++ whatsappAttempts env) ++
          telegramAttempts { env with telegramSend := f }).map
            (attemptToRecord inc now), true) := by
      rw [sendIncidentNotifications_eq]
      have hs2 : severityEnabled { env with telegramSend := f } inc.severity = true := hsev
      rw [hs2]
      rfl
    rw [hmain, hvar]
    simp only [List.map_append, List.filter_append]
    have hT : ((telegramAttempts { env with telegramSend := f }).map
          (attemptToRecord inc now)).filter
            (fun n => !(n.type == "telegram" && n.recipient == c)) =
        ((telegramAttempts env).map (attemptToRecord inc now)).filter
          (fun n => !(n.type == "telegram" && n.recipient == c)) := by
      unfold telegramAttempts
      by_cases hcond : (env.telegramEnabled && env.telegramReady) = true
      · rw [show ({ env with telegramSend := f } : ChannelEnv).telegramEnabled =
            env.telegramEnabled from rfl,
          show ({ env with telegramSend := f } : ChannelEnv).telegramReady =
            env.telegramReady from rfl, hcond]
        simp only [if_true]
        rcases hq : env.telegramQuery with qe | subs
        · rfl
        · dsimp only
          rw [List.map_map, List.map_map]
          apply filter_map_congr
          intro s hsmem
          by_cases hc : s.1 = c
          · right
            constructor
            · cases hfc2 : f c <;>
                simp [Function.comp, attemptToRecord, hc, hfc2]
            · cases hsend2 : env.telegramSend c <;>
                simp [Function.comp, attemptToRecord, hc, hsend2]
          · left
            have hfs : f s.1 = env.telegramSend s.1 := hfc s.1 hc
            simp [Function.comp, hfs]
      · rw [show ({ env with telegramSend := f } : ChannelEnv).telegramEnabled =
            env.telegramEnabled from rfl,
          show ({ env with telegramSend := f } : ChannelEnv).telegramReady =
            env.telegramReady from rfl]
        rw [if_neg hcond, if_neg hcond]
    rw [hT]
  · intro n hn
    rw [hmain] at hn
    obtain ⟨a, ha, rfl⟩ := List.mem_map.mp hn
    have := attempts_outcome env a ha
    simpa [attemptToRecord] using this

/-- Witness for C3 at a concrete environment (failing email, succeeding
WhatsApp): the flag is still set. -/
theorem fanout_isolation_witness :
    (sendIncidentNotifications recoveryCexEnv recoveryCexIncident 500).2 = true :=
  (fanout_isolation recoveryCexEnv recoveryCexIncident 500 (by decide)).1

/-- A successful registry lookup returns an entry of the map. -/
theorem findTimer_mem {m : List (String × Nat)} {id : String} {t : Nat}
    (h : findTimer m id = some t) : (id, t) ∈ m := by
  unfold findTimer at h
  cases hf : m.find? (fun p => p.1 == id) with
  | none => rw [hf] at h; cases h
  | some q =>
      rw [hf] at h
      have hq := List.find?_some hf
      have hqm := List.mem_of_find?_eq_some hf
      have h1 : q.1 = id := by simpa using hq
      have h2 : q.2 = t := by simpa using h
      have : q = (id, t) := by
        cases q
        simp_all
      rw [← this]
      exact hqm

/-- Lookup at the freshly inserted key. -/
theorem findTimer_cons_self (m : List (String × Nat)) (id : String) (t : Nat) :
    findTimer ((id, t) :: m) id = some t := by
  unfold findTimer
  rw [List.find?_cons_of_pos]
  · rfl
  · simp

/-- Lookup at a different key skips the inserted head. -/
theorem findTimer_cons_ne (m : List (String × Nat)) (id key : String) (t : Nat)
    (h : key ≠ id) : findTimer ((id, t) :: m) key = findTimer m key := by
  unfold findTimer
  rw [List.find?_cons_of_neg]
  simp [beq_eq_false_iff_ne]
  exact fun h2 => h h2.symm

/-- Membership in the map after a key removal. -/
theorem mem_removeKey {m : List (String × Nat)} {id : String}
    {q : String × Nat} : q ∈ removeKey m id ↔ q ∈ m ∧ q.1 ≠ id := by
  unfold removeKey
  rw [List.mem_filter]
  simp [beq_eq_false_iff_ne]

/-- Removing a key does not change the lookup of other keys. -/
theorem findTimer_removeKey (m : List (String × Nat)) (id key : String)
    (h : key ≠ id) : findTimer (removeKey m id) key = findTimer m key := by
  induction m with
  | nil => rfl
  | cons q tl ih =>
      by_cases hq : q.1 = id
      · have hdrop : removeKey (q :: tl) id = removeKey tl id := by
          unfold removeKey
          simp [List.filter_cons, hq]
        have hqk : (q.1 == key) = false := by
          rw [beq_eq_false_iff_ne, hq]
          exact fun h2 => h h2.symm
        rw [hdrop, ih]
        unfold findTimer
        rw [List.find?_cons_of_neg]
        simp [hqk]
      · have hkeep : removeKey (q :: tl) id = q :: removeKey tl id := by
          unfold removeKey
          simp [List.filter_cons, hq]
        rw [hkeep]
        by_cases hqk : q.1 = key
        · unfold findTimer
          rw [List.find?_cons_of_pos _ (by simp [hqk]),
            List.find?_cons_of_pos _ (by simp [hqk])]
        · unfold findTimer at ih ⊢
          rw [List.find?_cons_of_neg _ (by simp [beq_eq_false_iff_ne, hqk]),
            List.find?_cons_of_neg _ (by simp [beq_eq_false_iff_ne, hqk])]
          exact ih

/-- startMonitoring when a timer is already registered for the id. -/
theorem startMonitoring_eq_some {s : Sched} {id : String} {t : Nat}
    (h : findTimer s.monitoring id = some t) :
    startMonitoring s id =
      { monitoring := (id, s.nextTimer) :: removeKey s.monitoring id
        createdTimers := s.createdTimers ++ [(id, s.nextTimer)]
        cancelled := s.cancelled ++ [t]
        nextTimer := s.nextTimer + 1 } := by
  unfold startMonitoring
  rw [h]

/-- startMonitoring when no timer is registered for the id. -/
theorem startMonitoring_eq_none {s : Sched} {id : String}
    (h : findTimer s.monitoring id = none) :
    startMonitoring s id =
      { monitoring := (id, s.nextTimer) :: removeKey s.monitoring id
        createdTimers := s.createdTimers ++ [(id, s.nextTimer)]
        cancelled := s.cancelled
        nextTimer := s.nextTimer + 1 } := by
  unfold startMonitoring
  rw [h]

/-- stopMonitoring when a timer is registered for the id. -/
theorem stopMonitoring_eq_some {s : Sched} {id : String} {t : Nat}
    (h : findTimer s.monitoring id = some t) :
    stopMonitoring s id =
      { monitoring := removeKey s.monitoring id
        createdTimers := s.createdTimers
        cancelled := s.cancelled ++ [t]
        nextTimer := s.nextTimer } := by
  unfold stopMonitoring
  rw [h]

/-- stopMonitoring of an unregistered id does nothing. -/
theorem stopMonitoring_eq_none {s : Sched} {id : String}
    (h : findTimer s.monitoring id = none) : stopMonitoring s id = s := by
  unfold stopMonitoring
  rw [h]

/-- A list whose image under an injective-on-it map is constant has at
most one element. -/
theorem length_le_one_of_nodup_map {α β : Type} {l : List α} {f : α → β}
    (hnd : (l.map f).Nodup) {b : β} (hall : ∀ a ∈ l, f a = b) :
    l.length ≤ 1 := by
  cases l with
  | nil => simp
  | cons a tl =>
      cases tl with
      | nil => simp
      | cons a2 tl2 =>
          exfalso
          have h1 := hall a (by simp)
          have h2 := hall a2 (by simp)
          rw [List.map_cons, List.map_cons, List.nodup_cons] at hnd
          exact hnd.1 (by simp [h1, h2])


/-- startMonitoring preserves the scheduler invariant. -/
theorem schedWF_start (s : Sched) (id : String) (h : SchedWF s) :
    SchedWF (startMonitoring s id) := by
  cases hT : findTimer s.monitoring id with
  | some t0 =>
      have ht0mem : (id, t0) ∈ s.monitoring := findTimer_mem hT
      have ht0crt := h.registered_live _ ht0mem
      have ht0lt : t0 < s.nextTimer := h.created_lt _ ht0crt.1
      rw [startMonitoring_eq_some hT]
      constructor
      · intro p hp
        rcases List.mem_append.mp hp with hp | hp
        · exact Nat.lt_succ_of_lt (h.created_lt p hp)
        · simp at hp
          rw [hp]
          exact Nat.lt_succ_self _
      · intro x hx
        rcases List.mem_append.mp hx with hx | hx
        · exact Nat.lt_succ_of_lt (h.cancelled_lt x hx)
        · simp at hx
          rw [hx]
          exact Nat.lt_succ_of_lt ht0lt
      · rw [List.map_append, List.nodup_append]
        refine ⟨h.timers_nodup, by simp, ?_⟩
        intro x hx hx2
        simp at hx2
        rw [hx2] at hx
        obtain ⟨p, hp, hps⟩ := List.mem_map.mp hx
        have := h.created_lt p hp
        omega
      · intro p hp hpc
        rcases List.mem_append.mp hp with hp | hp
        · have hpc2 : p.2 ∉ s.cancelled := fun hc =>
            hpc (List.mem_append.mpr (Or.inl hc))
          have hreg := h.live_registered p hp hpc2
          by_cases hpid : p.1 = id
          · exfalso
            rw [hpid, hT] at hreg
            have hpt : t0 = p.2 := by injection hreg
            exact hpc (List.mem_append.mpr (Or.inr (by simp [← hpt])))
          · rw [findTimer_cons_ne _ _ _ _ hpid, findTimer_removeKey _ _ _ hpid]
            exact hreg
        · simp at hp
          rw [hp]
          exact findTimer_cons_self _ _ _
      · intro q hq
        rcases List.mem_cons.mp hq with hq | hq
        · rw [hq]
          refine ⟨List.mem_append.mpr (Or.inr (by simp)), ?_⟩
          intro hmem
          rcases List.mem_append.mp hmem with hmem | hmem
          · exact absurd (h.cancelled_lt _ hmem) (by omega)
          · simp at hmem
            omega
        · have hq2 := mem_removeKey.mp hq
          have hlive := h.registered_live q hq2.1
          refine ⟨List.mem_append.mpr (Or.inl hlive.1), ?_⟩
          intro hmem
          rcases List.mem_append.mp hmem with hmem | hmem
          · exact hlive.2 hmem
          · simp at hmem
            have : q = (id, t0) := List.inj_on_of_nodup_map h.timers_nodup
              hlive.1 ht0crt.1 hmem
            exact hq2.2 (by rw [this])
      · rw [List.map_cons, List.nodup_cons]
        constructor
        · intro hmem
          obtain ⟨p, hp, hps⟩ := List.mem_map.mp hmem
          exact (mem_removeKey.mp hp).2 hps
        · exact List.Nodup.sublist
            (List.Sublist.map _ (List.filter_sublist _)) h.keys_nodup
  | none =>
      rw [startMonitoring_eq_none hT]
      constructor
      · intro p hp
        rcases List.mem_append.mp hp with hp | hp
        · exact Nat.lt_succ_of_lt (h.created_lt p hp)
        · simp at hp
          rw [hp]
          exact Nat.lt_succ_self _
      · intro x hx
        exact Nat.lt_succ_of_lt (h.cancelled_lt x hx)
      · rw [List.map_append, List.nodup_append]
        refine ⟨h.timers_nodup, by simp, ?_⟩
        intro x hx hx2
        simp at hx2
        rw [hx2] at hx
        obtain ⟨p, hp, hps⟩ := List.mem_map.mp hx
        have := h.created_lt p hp
        omega
      · intro p hp hpc
        rcases List.mem_append.mp hp with hp | hp
        · have hreg := h.live_registered p hp hpc
          by_cases hpid : p.1 = id
          · exfalso
            rw [hpid, hT] at hreg
            cases hreg
          · rw [findTimer_cons_ne _ _ _ _ hpid, findTimer_removeKey _ _ _ hpid]
            exact hreg
        · simp at hp
          rw [hp]
          exact findTimer_cons_self _ _ _
      · intro q hq
        rcases List.mem_cons.mp hq with hq | hq
        · rw [hq]
          refine ⟨List.mem_append.mpr (Or.inr (by simp)), ?_⟩
          intro hmem
          exact absurd (h.cancelled_lt _ hmem) (by omega)
        · have hq2 := mem_removeKey.mp hq
          have hlive := h.registered_live q hq2.1
          exact ⟨List.mem_append.mpr (Or.inl hlive.1), hlive.2⟩
      · rw [List.map_cons, List.nodup_cons]
        constructor
        · intro hmem
          obtain ⟨p, hp, hps⟩ := List.mem_map.mp hmem
          exact (mem_removeKey.mp hp).2 hps
        · exact List.Nodup.sublist
            (List.Sublist.map _ (List.filter_sublist _)) h.keys_nodup

/-- stopMonitoring preserves the scheduler invariant. -/
theorem schedWF_stop (s : Sched) (id : String) (h : SchedWF s) :
    SchedWF (stopMonitoring s id) := by
  cases hT : findTimer s.monitoring id with
  | some t0 =>
      have ht0mem : (id, t0) ∈ s.monitoring := findTimer_mem hT
      have ht0crt := h.registered_live _ ht0mem
      have ht0lt : t0 < s.nextTimer := h.created_lt _ ht0crt.1
      rw [stopMonitoring_eq_some hT]
      constructor
      · exact h.created_lt
      · intro x hx
        rcases List.mem_append.mp hx with hx | hx
        · exact h.cancelled_lt x hx
        · simp at hx
          rw [hx]
          exact ht0lt
      · exact h.timers_nodup
      · intro p hp hpc
        have hpc2 : p.2 ∉ s.cancelled := fun hc =>
          hpc (List.mem_append.mpr (Or.inl hc))
        have hreg := h.live_registered p hp hpc2
        by_cases hpid : p.1 = id
        · exfalso
          rw [hpid, hT] at hreg
          have hpt : t0 = p.2 := by injection hreg
          exact hpc (List.mem_append.mpr (Or.inr (by simp [← hpt])))
        · rw [findTimer_removeKey _ _ _ hpid]
          exact hreg
      · intro q hq
        have hq2 := mem_removeKey.mp hq
        have hlive := h.registered_live q hq2.1
        refine ⟨hlive.1, ?_⟩
        intro hmem
        rcases List.mem_append.mp hmem with hmem | hmem
        · exact hlive.2 hmem
        · simp at hmem
          have : q = (id, t0) := List.inj_on_of_nodup_map h.timers_nodup
            hlive.1 ht0crt.1 hmem
          exact hq2.2 (by rw [this])
      · exact List.Nodup.sublist
          (List.Sublist.map _ (List.filter_sublist _)) h.keys_nodup
  | none =>
      rw [stopMonitoring_eq_none hT]
      exact h

/-- Under the scheduler invariant, at most one live timer exists per
server id. -/
theorem activeFor_length_le_one (s : Sched) (h : SchedWF s) (id : String) :
    (activeFor s id).length ≤ 1 := by
  unfold activeFor
  cases hT : findTimer s.monitoring id with
  | some t0 =>
      have hnd : ((s.createdTimers.filter
          (fun p => p.1 == id && !(s.cancelled.contains p.2))).map
            (fun p => p.2)).Nodup :=
        List.Nodup.sublist (List.Sublist.map _ (List.filter_sublist _))
          h.timers_nodup
      apply length_le_one_of_nodup_map hnd
      intro p hp
      have hp2 := List.mem_filter.mp hp
      have hcond := hp2.2
      rw [Bool.and_eq_true] at hcond
      have hpid : p.1 = id := by simpa using hcond.1
      have hpc : p.2 ∉ s.cancelled := by
        have := hcond.2
        simp at this
        exact this
      have hreg := h.live_registered p hp2.1 hpc
      rw [hpid, hT] at hreg
      injection hreg with hreg2
      exact hreg2.symm
  | none =>
      have : s.createdTimers.filter
          (fun p => p.1 == id && !(s.cancelled.contains p.2)) = [] := by
        rw [List.filter_eq_nil_iff]
        intro p hp hcond
        rw [Bool.and_eq_true] at hcond
        have hpid : p.1 = id := by simpa using hcond.1
        have hpc : p.2 ∉ s.cancelled := by
          have := hcond.2
          simp at this
          exact this
        have hreg := h.live_registered p hp hpc
        rw [hpid, hT] at hreg
        cases hreg
      rw [this]
      simp

/-- C8: from any well-formed scheduler state, startMonitoring cancels
the previously registered timer for the id (when there is one) before
arming the fresh timer, the resulting state is again well-formed and
holds at most one live timer per server id (exactly one check fires per
poll interval); stopMonitoring also preserves well-formedness, and
stopMonitoring for an id with no registered timer is a no-op. -/
theorem startMonitoring_idempotent_rearm (s : Sched) (id : String)
    (h : SchedWF s) :
    SchedWF (startMonitoring s id) ∧
    SchedWF (stopMonitoring s id) ∧
    (∀ t, findTimer s.monitoring id = some t →
      t ∈ (startMonitoring s id).cancelled) ∧
    (∀ id2, (activeFor (startMonitoring s id) id2).length ≤ 1) ∧
    (∀ id2, findTimer s.monitoring id2 = none → stopMonitoring s id2 = s) := by
  refine ⟨schedWF_start s id h, schedWF_stop s id h, ?_, ?_, ?_⟩
  · intro t ht
    rw [startMonitoring_eq_some ht]
    simp
  · intro id2
    exact activeFor_length_le_one _ (schedWF_start s id h) id2
  · intro id2 hid2
    exact stopMonitoring_eq_none hid2

/-- Witness for C8: arming the same id twice from the empty registry
leaves at most one live timer, and the first timer is cancelled. -/
theorem startMonitoring_idempotent_rearm_witness :
    (activeFor (startMonitoring
      (startMonitoring
        { monitoring := [], createdTimers := [], cancelled := [], nextTimer := 0 }
        "srv1") "srv1") "srv1").length ≤ 1 ∧
    (0 : Nat) ∈ (startMonitoring (startMonitoring
      { monitoring := [], createdTimers := [], cancelled := [], nextTimer := 0 }
      "srv1") "srv1").cancelled := by
  have hwf : SchedWF (startMonitoring
      { monitoring := [], createdTimers := [], cancelled := [], nextTimer := 0 }
      "srv1") :=
    ⟨by decide, by decide, by decide, by decide, by decide, by decide⟩
  have hmain := startMonitoring_idempotent_rearm
    (startMonitoring
      { monitoring := [], createdTimers := [], cancelled := [], nextTimer := 0 }
      "srv1") "srv1" hwf
  exact ⟨hmain.2.2.2.1 "srv1", hmain.2.2.1 0 (by decide)⟩

end FnBot
